import Mathlib

/-!
Verification development for the `slow-body` package (`src/index.ts`).

The package has two parts:

* `setupSocketTimeout` — a per-connection monitor attached on the server's
  `connection` event.  It counts body bytes (skipping the header bytes up to
  the first `\r\n\r\n` separator), keeps the time of the first byte, runs a
  1-second `setInterval` watchdog, and emits `timeout` / `incompleteBody`
  events on the socket.  The server's `request` event stores the parsed
  `Content-Length` on the socket.

* `slowBodyTimeout` — an Express middleware (the request gate).  It skips
  non-body methods, rejects `Content-Length: 0` with a 400, and otherwise
  registers `timeout` / `incompleteBody` handlers plus an idempotent
  `cleanup`.

The embedding below mirrors the TypeScript handler by handler.  Machine
times (`Date.now()`) are natural numbers; a socket's byte stream is a list
of byte values (`List Nat`); the per-connection hidden socket properties
(`kContentLength`, `kBytesReceived`) and handler-local variables
(`firstByteTime`, `headersReceived`, the interval handle) become fields of
`ConnState`.  `clearInterval` is modelled by the boolean `intervalArmed`:
a tick of a cleared interval never runs, so it is a no-op when
`intervalArmed = false`.
-/

/-- The two events the monitor emits on the socket:
`socket.emit("timeout")` and `socket.emit("incompleteBody")`. -/
inductive Signal where
  | timeout
  | incompleteBody
deriving Repr, DecidableEq

/-- Per-connection state of `setupSocketTimeout`'s `connection` handler.

`contentLength = none` stands for the socket property being `undefined`
(no `request` event stored a value yet).  In JavaScript a `NaN` stored by
`parseInt` behaves exactly like `undefined` in every comparison this file
performs (`===` and `!==` against a number are `false` resp. `true`), so
`none` also covers that case. -/
structure ConnState where
  firstByteTime : Option Nat
  connectionOpenTime : Nat
  bytesReceived : Nat
  headersReceived : Bool
  contentLength : Option Nat
  intervalArmed : Bool
deriving Repr, DecidableEq

/-- State set up at the top of the `connection` handler:
`firstByteTime = undefined`, `socket[kBytesReceived] = 0`,
`headersReceived = false`, and the `setInterval` watchdog armed. -/
def initState (openTime : Nat) : ConnState :=
  { firstByteTime := none
    connectionOpenTime := openTime
    bytesReceived := 0
    headersReceived := false
    contentLength := none
    intervalArmed := true }

/-- Does `pat` occur as a prefix of `l`? -/
def matchesAt : List Nat → List Nat → Bool
  | [], _ => true
  | _ :: _, [] => false
  | p :: ps, c :: cs => p = c && matchesAt ps cs

/-- `Buffer.indexOf(pattern)`: index of the first occurrence of the
(nonempty) byte pattern, `none` for `-1`. -/
def bufIndexOf (pat : List Nat) : List Nat → Option Nat
  | [] => none
  | c :: cs =>
      if matchesAt pat (c :: cs) then some 0
      else (bufIndexOf pat cs).map (fun i => i + 1)

/-- The bytes of `"\r\n\r\n"`, the double CRLF ending the HTTP headers. -/
def headerSep : List Nat := [13, 10, 13, 10]

/-- The byte-counting part of the `data` handler: before the header
boundary is found, scan the chunk for `\r\n\r\n` and count only the bytes
after it; afterwards count the whole chunk. -/
def dataCount (st : ConnState) (chunk : List Nat) : ConnState :=
  if !st.headersReceived then
    match bufIndexOf headerSep chunk with
    | some headerEnd =>
        { st with headersReceived := true
                  bytesReceived := st.bytesReceived + (chunk.length - (headerEnd + 4)) }
    | none => st
  else
    { st with bytesReceived := st.bytesReceived + chunk.length }

/-- The first lines of the `data` handler: `if (firstByteTime ===
undefined) firstByteTime = Date.now()`. -/
def markFirst (st : ConnState) (now : Nat) : ConnState :=
  if st.firstByteTime.isNone then { st with firstByteTime := some now } else st

/-- The completion check at the end of the `data` handler:
`clearInterval` when `socket[kBytesReceived] === socket[kContentLength]`
(strict equality; `undefined` never compares equal to a number). -/
def armCheck (st : ConnState) : ConnState :=
  if st.contentLength = some st.bytesReceived then
    { st with intervalArmed := false }
  else st

/-- The whole `data` handler: record `firstByteTime` on the first chunk,
count bytes, then run the completion check on the updated fields. -/
def onData (st : ConnState) (now : Nat) (chunk : List Nat) : ConnState :=
  armCheck (dataCount (markFirst st now) chunk)

/-- One firing of the `setInterval` callback at time `now` with configured
timeout `tmo`: `timeSinceFirstByte = Date.now() - (firstByteTime ??
connectionOpenTime)`; when it exceeds `tmo`, emit `timeout` and
`clearInterval`.  A cleared interval never fires, so the tick is a no-op
when the interval is not armed. -/
def onTick (st : ConnState) (now tmo : Nat) : ConnState × List Signal :=
  if st.intervalArmed then
    if tmo < now - st.firstByteTime.getD st.connectionOpenTime then
      ({ st with intervalArmed := false }, [Signal.timeout])
    else (st, [])
  else (st, [])

/-- The `end` handler: emit `incompleteBody` when
`socket[kBytesReceived] !== socket[kContentLength]`. -/
def onEnd (st : ConnState) : ConnState × List Signal :=
  if st.contentLength ≠ some st.bytesReceived then (st, [Signal.incompleteBody])
  else (st, [])

/-- The `close` handler: `clearInterval(checkIntervalId)`. -/
def onClose (st : ConnState) : ConnState :=
  { st with intervalArmed := false }

/-- Leading-decimal-digit value of a character. -/
def digVal (c : Char) : Option Nat :=
  if c.isDigit then some (c.toNat - 48) else none

/-- Accumulate the leading decimal digits. -/
def parseDigits : List Char → Nat → Nat
  | [], acc => acc
  | c :: cs, acc =>
      match digVal c with
      | some d => parseDigits cs (acc * 10 + d)
      | none => acc

/-- `parseInt(s, 10)` restricted to the shapes this program meets: a
string whose first character is a decimal digit parses to its leading
digit run; anything else is `NaN`, returned as `none`.  (The leading
whitespace/sign handling of full `parseInt` is irrelevant to the header
values considered here.) -/
def parseIntDec (s : String) : Option Nat :=
  match s.toList with
  | [] => none
  | c :: cs =>
      match digVal c with
      | some d => some (parseDigits cs d)
      | none => none

/-- The server `request` handler: when `req.headers["content-length"]` is
truthy (present and nonempty), store `parseInt(value, 10)` on the socket.
A `NaN` result is stored as `none`, which is observationally equal to it
in every comparison performed on `contentLength`. -/
def onRequest (st : ConnState) (header : Option String) : ConnState :=
  match header with
  | none => st
  | some s =>
      if s = "" then st
      else { st with contentLength := parseIntDec s }

/-- The events that can reach one connection's monitor: a socket `data`
chunk arriving at a time, a watchdog tick at a time, a server `request`
whose `content-length` header is `header`, the socket's `end`, and its
`close`. -/
inductive Event where
  | data (now : Nat) (chunk : List Nat)
  | tick (now : Nat)
  | request (header : Option String)
  | sockEnd
  | close
deriving Repr, DecidableEq

/-- Events after which no further byte progress or header parsing
happens: watchdog ticks, the socket's `end`, and its `close`. -/
def isQuiet : Event → Bool
  | Event.tick _ => true
  | Event.sockEnd => true
  | Event.close => true
  | _ => false

/-- Dispatch one event to the handler the source registers for it. -/
def step (tmo : Nat) (st : ConnState) : Event → ConnState × List Signal
  | Event.data now chunk => (onData st now chunk, [])
  | Event.tick now => onTick st now tmo
  | Event.request h => (onRequest st h, [])
  | Event.sockEnd => onEnd st
  | Event.close => (onClose st, [])

/-- Run a sequence of events, collecting the emitted signals in order.
The Node event loop runs the callbacks of one connection sequentially, so
a connection's observable behaviour is the run of its event list. -/
def run (tmo : Nat) (st : ConnState) : List Event → ConnState × List Signal
  | [] => (st, [])
  | e :: es =>
      let r1 := step tmo st e
      let r2 := run tmo r1.1 es
      (r2.1, r1.2 ++ r2.2)

/-!
The request gate `slowBodyTimeout`.
-/

/-- What one invocation of the `slowBodyTimeout` middleware does before
handing off: the response it sends (if any), whether the
`timeout`/`incompleteBody`/`finish`/`close` listeners were registered,
and whether `next()` was called. -/
structure GateResult where
  responseStatus : Option Nat
  responseBody : Option String
  listenersAttached : Bool
  nextCalled : Bool
deriving Repr, DecidableEq

/-- `["POST", "PUT", "PATCH"]` from the middleware's method check. -/
def bodyMethods : List String := ["POST", "PUT", "PATCH"]

/-- Entry logic of the middleware: non-body methods pass through
unmonitored; `content-length === "0"` is answered with
`res.status(400).send("Empty request body not allowed")` and `return`
(before any listener registration and without `next()`); otherwise the
four listeners are registered and `next()` is called. -/
def gateEntry (method : String) (clHeader : Option String) : GateResult :=
  if !(bodyMethods.contains method) then
    { responseStatus := none, responseBody := none
      listenersAttached := false, nextCalled := true }
  else if clHeader = some "0" then
    { responseStatus := some 400, responseBody := some "Empty request body not allowed"
      listenersAttached := false, nextCalled := false }
  else
    { responseStatus := none, responseBody := none
      listenersAttached := true, nextCalled := true }

/-- The response-side actions a signal handler can perform. -/
inductive ResAction where
  | log
  | writeStatusBody (code : Nat)
  | endResponse
  | destroyConn
  | removeListeners
deriving Repr, DecidableEq

/-- Actions of the `onTimeout` handler, as a function of whether the
response was already flushed.  The source performs the same sequence
unconditionally — it never consults `res.headersSent` or any other flush
state — so the parameter is not inspected. -/
def onTimeoutActions (_flushed : Bool) : List ResAction :=
  [ResAction.log, ResAction.writeStatusBody 408, ResAction.endResponse,
   ResAction.destroyConn, ResAction.removeListeners]

/-- Actions of the `onIncomplete` handler; like `onTimeout` it is
unconditional in the flush state. -/
def onIncompleteActions (_flushed : Bool) : List ResAction :=
  [ResAction.log, ResAction.writeStatusBody 400, ResAction.endResponse,
   ResAction.destroyConn, ResAction.removeListeners]

/-- The listener bookkeeping one gate invocation owns: whether each of its
four registrations is still in place, plus how many responses have been
sent on `res`. -/
structure GateListeners where
  sockTimeout : Bool
  sockIncomplete : Bool
  resFinish : Bool
  resClose : Bool
  responsesSent : Nat
deriving Repr, DecidableEq

/-- The `cleanup` function: four `removeListener` calls.  Node's
`removeListener` on an already-removed handler is a harmless no-op, so
removal is modelled as setting the flag to `false` regardless of its
current value; `cleanup` touches nothing else. -/
def cleanup (g : GateListeners) : GateListeners :=
  { g with sockTimeout := false, sockIncomplete := false,
           resFinish := false, resClose := false }

/-!
Basic field-preservation lemmas about the individual handlers.
-/

theorem markFirst_bytesReceived (st : ConnState) (now : Nat) :
    (markFirst st now).bytesReceived = st.bytesReceived := by
  unfold markFirst; split <;> rfl

theorem markFirst_headersReceived (st : ConnState) (now : Nat) :
    (markFirst st now).headersReceived = st.headersReceived := by
  unfold markFirst; split <;> rfl

theorem markFirst_contentLength (st : ConnState) (now : Nat) :
    (markFirst st now).contentLength = st.contentLength := by
  unfold markFirst; split <;> rfl

theorem markFirst_intervalArmed (st : ConnState) (now : Nat) :
    (markFirst st now).intervalArmed = st.intervalArmed := by
  unfold markFirst; split <;> rfl

theorem dataCount_contentLength (st : ConnState) (chunk : List Nat) :
    (dataCount st chunk).contentLength = st.contentLength := by
  unfold dataCount; split
  · split <;> rfl
  · rfl

theorem dataCount_intervalArmed (st : ConnState) (chunk : List Nat) :
    (dataCount st chunk).intervalArmed = st.intervalArmed := by
  unfold dataCount; split
  · split <;> rfl
  · rfl

theorem armCheck_contentLength (st : ConnState) :
    (armCheck st).contentLength = st.contentLength := by
  unfold armCheck; split <;> rfl

theorem armCheck_bytesReceived (st : ConnState) :
    (armCheck st).bytesReceived = st.bytesReceived := by
  unfold armCheck; split <;> rfl

theorem armCheck_of_ne (st : ConnState)
    (h : st.contentLength ≠ some st.bytesReceived) : armCheck st = st := by
  unfold armCheck; rw [if_neg h]

theorem armCheck_armed_false (st : ConnState)
    (h : st.intervalArmed = false) : (armCheck st).intervalArmed = false := by
  unfold armCheck; split
  · rfl
  · exact h

theorem onData_contentLength (st : ConnState) (now : Nat) (chunk : List Nat) :
    (onData st now chunk).contentLength = st.contentLength := by
  unfold onData
  rw [armCheck_contentLength, dataCount_contentLength, markFirst_contentLength]

theorem onData_done_disarmed (st : ConnState) (now : Nat) (chunk : List Nat)
    (h : (onData st now chunk).contentLength = some (onData st now chunk).bytesReceived) :
    (onData st now chunk).intervalArmed = false := by
  unfold onData at *
  rw [armCheck_contentLength, armCheck_bytesReceived] at h
  unfold armCheck
  rw [if_pos h]

theorem onData_armed_of_ne (st : ConnState) (now : Nat) (chunk : List Nat)
    (h : (onData st now chunk).contentLength ≠ some (onData st now chunk).bytesReceived) :
    (onData st now chunk).intervalArmed = st.intervalArmed := by
  unfold onData at *
  rw [armCheck_contentLength, armCheck_bytesReceived] at h
  rw [armCheck_of_ne _ h, dataCount_intervalArmed, markFirst_intervalArmed]

theorem onData_armed_false (st : ConnState) (now : Nat) (chunk : List Nat)
    (h : st.intervalArmed = false) :
    (onData st now chunk).intervalArmed = false := by
  unfold onData
  apply armCheck_armed_false
  rw [dataCount_intervalArmed, markFirst_intervalArmed]
  exact h

theorem onRequest_intervalArmed (st : ConnState) (header : Option String) :
    (onRequest st header).intervalArmed = st.intervalArmed := by
  unfold onRequest
  cases header with
  | none => rfl
  | some s => dsimp only; split <;> rfl

theorem onEnd_fst (st : ConnState) : (onEnd st).1 = st := by
  unfold onEnd; split <;> rfl

theorem onEnd_no_timeout (st : ConnState) : Signal.timeout ∉ (onEnd st).2 := by
  unfold onEnd; split <;> simp

/-!
Lemmas about whole runs.
-/

theorem run_append (tmo : Nat) (st : ConnState) (es1 es2 : List Event) :
    run tmo st (es1 ++ es2) =
      ((run tmo (run tmo st es1).1 es2).1,
       (run tmo st es1).2 ++ (run tmo (run tmo st es1).1 es2).2) := by
  induction es1 generalizing st with
  | nil => simp [run]
  | cons e es ih => simp [run, ih, List.append_assoc]

theorem step_disarmed (tmo : Nat) (st : ConnState) (e : Event)
    (h : st.intervalArmed = false) :
    (step tmo st e).1.intervalArmed = false ∧ Signal.timeout ∉ (step tmo st e).2 := by
  cases e with
  | data now chunk => exact ⟨onData_armed_false st now chunk h, by simp [step]⟩
  | tick now => simp [step, onTick, h]
  | request hd => exact ⟨by simpa [step, onRequest_intervalArmed] using h, by simp [step]⟩
  | sockEnd => exact ⟨by simpa [step, onEnd_fst] using h, by simpa [step] using onEnd_no_timeout st⟩
  | close => simp [step, onClose]

theorem noTimeout_of_disarmed (tmo : Nat) (st : ConnState) (es : List Event)
    (h : st.intervalArmed = false) :
    (run tmo st es).1.intervalArmed = false ∧ Signal.timeout ∉ (run tmo st es).2 := by
  induction es generalizing st with
  | nil => exact ⟨h, by simp [run]⟩
  | cons e es ih =>
      have hs := step_disarmed tmo st e h
      have hr := ih (step tmo st e).1 hs.1
      refine ⟨by simp only [run]; exact hr.1, ?_⟩
      simp only [run, List.mem_append]
      rintro (h1 | h2)
      · exact hs.2 h1
      · exact hr.2 h2

theorem quiet_run_silent (tmo : Nat) (st : ConnState) (es : List Event)
    (harm : st.intervalArmed = false)
    (hdone : st.contentLength = some st.bytesReceived)
    (hq : ∀ e ∈ es, isQuiet e = true) :
    (run tmo st es).2 = [] := by
  induction es generalizing st with
  | nil => simp [run]
  | cons e es ih =>
      have hqe := hq e (List.mem_cons_self e es)
      have hqs : ∀ e' ∈ es, isQuiet e' = true := fun e' he' => hq e' (List.mem_cons_of_mem e he')
      cases e with
      | data now chunk => simp [isQuiet] at hqe
      | request hd => simp [isQuiet] at hqe
      | tick now =>
          simp only [run, step, onTick, harm, if_false, Bool.false_eq_true]
          simpa using ih st harm hdone hqs
      | sockEnd =>
          have hend : onEnd st = (st, []) := by
            unfold onEnd
            rw [if_neg (by simp [hdone])]
          simp only [run, step, hend]
          simpa using ih st harm hdone hqs
      | close =>
          simp only [run, step, onClose]
          simpa using ih { st with intervalArmed := false } rfl hdone hqs

theorem step_no_incomplete (tmo : Nat) (st : ConnState) (e : Event)
    (he : e ≠ Event.sockEnd) :
    Signal.incompleteBody ∉ (step tmo st e).2 := by
  cases e with
  | data now chunk => simp [step]
  | tick now =>
      simp only [step, onTick]
      split
      · split <;> simp
      · simp
  | request hd => simp [step]
  | sockEnd => exact absurd rfl he
  | close => simp [step]

theorem noIncomplete_of_noEnd (tmo : Nat) (st : ConnState) (es : List Event)
    (h : Event.sockEnd ∉ es) :
    Signal.incompleteBody ∉ (run tmo st es).2 := by
  induction es generalizing st with
  | nil => simp [run]
  | cons e es ih =>
      have he : e ≠ Event.sockEnd := fun hc => h (hc ▸ List.mem_cons_self e es)
      have hes : Event.sockEnd ∉ es := fun hc => h (List.mem_cons_of_mem e hc)
      simp only [run, List.mem_append]
      rintro (h1 | h2)
      · exact step_no_incomplete tmo st e he h1
      · exact ih (step tmo st e).1 hes h2

theorem step_contentLength_of_not_request (tmo : Nat) (st : ConnState) (e : Event)
    (he : ∀ hd, e ≠ Event.request hd) :
    (step tmo st e).1.contentLength = st.contentLength := by
  cases e with
  | data now chunk => exact onData_contentLength st now chunk
  | tick now =>
      simp only [step, onTick]
      split
      · split <;> rfl
      · rfl
  | request hd => exact absurd rfl (he hd)
  | sockEnd => simp only [step, onEnd_fst]
  | close => rfl

theorem cl_none_of_noRequest (tmo : Nat) (st : ConnState) (es : List Event)
    (hnoreq : ∀ hd, Event.request hd ∉ es)
    (h0 : st.contentLength = none) :
    (run tmo st es).1.contentLength = none := by
  induction es generalizing st with
  | nil => simpa [run] using h0
  | cons e es ih =>
      have he : ∀ hd, e ≠ Event.request hd :=
        fun hd hc => hnoreq hd (hc ▸ List.mem_cons_self e es)
      have hes : ∀ hd, Event.request hd ∉ es :=
        fun hd hc => hnoreq hd (List.mem_cons_of_mem e hc)
      have h1 : (step tmo st e).1.contentLength = none :=
        (step_contentLength_of_not_request tmo st e he).trans h0
      simpa [run] using ih (step tmo st e).1 hes h1

theorem timeout_count_le_one (tmo : Nat) (st : ConnState) (es : List Event) :
    ((run tmo st es).2).count Signal.timeout ≤ 1 := by
  induction es generalizing st with
  | nil => simp [run]
  | cons e es ih =>
      simp only [run, List.count_append]
      cases e with
      | data now chunk => simpa [step] using ih (step tmo st (Event.data now chunk)).1
      | tick now =>
          by_cases harm : st.intervalArmed = true
          · by_cases hlt : tmo < now - (st.firstByteTime.getD st.connectionOpenTime)
            · have hstep : step tmo st (Event.tick now) =
                  ({ st with intervalArmed := false }, [Signal.timeout]) := by
                simp [step, onTick, harm, hlt]
              rw [hstep]
              have hno := (noTimeout_of_disarmed tmo { st with intervalArmed := false } es rfl).2
              simp [List.count_eq_zero_of_not_mem hno]
            · have hstep : step tmo st (Event.tick now) = (st, []) := by
                simp [step, onTick, harm, hlt]
              rw [hstep]
              simpa using ih st
          · have harm' : st.intervalArmed = false := by
              cases hb : st.intervalArmed
              · rfl
              · exact absurd hb harm
            have hstep : step tmo st (Event.tick now) = (st, []) := by
              simp [step, onTick, harm']
            rw [hstep]
            simpa using ih st
      | request hd => simpa [step] using ih (step tmo st (Event.request hd)).1
      | sockEnd =>
          have h1 : ((step tmo st Event.sockEnd).2).count Signal.timeout = 0 :=
            List.count_eq_zero_of_not_mem (by simpa [step] using onEnd_no_timeout st)
          rw [h1]
          simpa using ih (step tmo st Event.sockEnd).1
      | close => simpa [step] using ih (step tmo st Event.close).1

theorem onEnd_incomplete_count (st : ConnState) :
    ((onEnd st).2).count Signal.incompleteBody ≤ 1 := by
  unfold onEnd; split <;> simp

theorem incomplete_count_le_one (tmo : Nat) (st : ConnState) (es : List Event)
    (h : es.count Event.sockEnd ≤ 1) :
    ((run tmo st es).2).count Signal.incompleteBody ≤ 1 := by
  induction es generalizing st with
  | nil => simp [run]
  | cons e es ih =>
      simp only [run, List.count_append]
      by_cases he : e = Event.sockEnd
      · subst he
        have hzero : es.count Event.sockEnd = 0 := by
          rw [List.count_cons_self] at h
          omega
        have hnomem : Event.sockEnd ∉ es := by
          intro hmem
          have := List.count_pos_iff.mpr hmem
          omega
        have h2 : ((run tmo (step tmo st Event.sockEnd).1 es).2).count Signal.incompleteBody = 0 :=
          List.count_eq_zero_of_not_mem (noIncomplete_of_noEnd tmo _ es hnomem)
        have h1 : ((step tmo st Event.sockEnd).2).count Signal.incompleteBody ≤ 1 := by
          simpa [step] using onEnd_incomplete_count st
        omega
      · have h1 : ((step tmo st e).2).count Signal.incompleteBody = 0 :=
          List.count_eq_zero_of_not_mem (step_no_incomplete tmo st e he)
        have hes : es.count Event.sockEnd ≤ 1 := by
          have hne : Event.sockEnd ≠ e := fun hc => he hc.symm
          have := List.count_cons_of_ne hne es
          omega
        rw [h1]
        simpa using ih (step tmo st e).1 hes


/-!
The claims.
-/

/-- Claim C1, as stated, is false on the source: the watchdog tick
compares against `firstByteTime`, the time of the FIRST byte, not the
most recent one.  Concretely, with deadline `D = 3`: the client's header
chunk arrives at `t = 0` and a body byte at `t = 2` (declared length
100, body still in progress), so every inter-byte gap and the gap from
the last byte to the tick at `t = 4` are at most 2 < D; the tick at
`t = 4` nevertheless emits `timeout` because `4 - firstByteTime = 4 >
3`. -/
theorem C1_counterexample :
    (run 3 (initState 0)
      [Event.request (some "100"), Event.data 0 [65, 13, 10, 13, 10],
       Event.data 2 [66], Event.tick 4]).2 = [Signal.timeout] ∧
    (run 3 (initState 0)
      [Event.request (some "100"), Event.data 0 [65, 13, 10, 13, 10],
       Event.data 2 [66], Event.tick 4]).1.bytesReceived = 1 ∧
    (run 3 (initState 0)
      [Event.request (some "100"), Event.data 0 [65, 13, 10, 13, 10],
       Event.data 2 [66], Event.tick 4]).1.contentLength = some 100 :=
  ⟨rfl, rfl, rfl⟩

/-- Claim C1 (amended): on a watchdog tick for a connection whose
watchdog is still armed, the elapsed time is computed since the FIRST
byte observed on the connection (or since connection-open time if no
bytes have yet arrived); `timeout` is emitted exactly when that elapsed
time exceeds the deadline, and in that case the watchdog is stopped and
`timeout` is never emitted again on any continuation.  A connection that
keeps delivering bytes at short intervals can therefore still be timed
out once the total time since its first byte exceeds the deadline. -/
theorem C1_amended_watchdog (st : ConnState) (now tmo : Nat) (es : List Event)
    (h : st.intervalArmed = true) :
    ((onTick st now tmo).2 = [Signal.timeout] ↔
        tmo < now - st.firstByteTime.getD st.connectionOpenTime) ∧
    ((onTick st now tmo).2 = [Signal.timeout] →
        (onTick st now tmo).1.intervalArmed = false ∧
        Signal.timeout ∉ (run tmo (onTick st now tmo).1 es).2) := by
  by_cases hlt : tmo < now - st.firstByteTime.getD st.connectionOpenTime
  · have he : onTick st now tmo = ({ st with intervalArmed := false }, [Signal.timeout]) := by
      simp [onTick, h, hlt]
    rw [he]
    refine ⟨by simpa using hlt, fun _ => ⟨rfl, ?_⟩⟩
    exact (noTimeout_of_disarmed tmo { st with intervalArmed := false } es rfl).2
  · have he : onTick st now tmo = (st, []) := by
      simp [onTick, h, hlt]
    rw [he]
    exact ⟨by simpa using hlt, fun hc => by simp at hc⟩

/-- Concrete instance of the amended C1: a fresh connection (first byte
never seen, open at time 0) ticked at time 5 with deadline 3 emits
`timeout`, stops the watchdog, and a later tick emits nothing more. -/
theorem C1_amended_watchdog_witness :
    ((onTick (initState 0) 5 3).2 = [Signal.timeout] ↔
        3 < 5 - (initState 0).firstByteTime.getD (initState 0).connectionOpenTime) ∧
    ((onTick (initState 0) 5 3).2 = [Signal.timeout] →
        (onTick (initState 0) 5 3).1.intervalArmed = false ∧
        Signal.timeout ∉ (run 3 (onTick (initState 0) 5 3).1 [Event.tick 6]).2) :=
  C1_amended_watchdog (initState 0) 5 3 [Event.tick 6] rfl

/-- Claim C2, as stated, is false on the source, for the same reason as
claim C1: the watchdog clocks from the FIRST byte, not from last
progress, so the inactivity deadline never elapsing does not stop it.
Concretely, with deadline `D = 3`: headers declaring `Content-Length:
10` arrive at `t = 0` and one body byte arrives every time unit (every
gap is 1 < D, so the inactivity deadline never elapses), and the counted
body bytes reach the declared length 10 at `t = 10`; yet the tick at
`t = 4` has already emitted `timeout`, because `4 - firstByteTime = 4 >
3`.  So this connection completes its body before its inactivity
deadline elapses and still receives a `timeout` signal. -/
theorem C2_counterexample :
    (run 3 (initState 0)
      [Event.request (some "10"), Event.data 0 [65, 13, 10, 13, 10],
       Event.tick 1, Event.data 1 [1], Event.tick 2, Event.data 2 [1],
       Event.tick 3, Event.data 3 [1], Event.tick 4, Event.data 4 [1],
       Event.data 5 [1], Event.data 6 [1], Event.data 7 [1], Event.data 8 [1],
       Event.data 9 [1], Event.data 10 [1], Event.sockEnd, Event.close]).2 =
      [Signal.timeout] ∧
    (run 3 (initState 0)
      [Event.request (some "10"), Event.data 0 [65, 13, 10, 13, 10],
       Event.tick 1, Event.data 1 [1], Event.tick 2, Event.data 2 [1],
       Event.tick 3, Event.data 3 [1], Event.tick 4, Event.data 4 [1],
       Event.data 5 [1], Event.data 6 [1], Event.data 7 [1], Event.data 8 [1],
       Event.data 9 [1], Event.data 10 [1], Event.sockEnd, Event.close]).1.bytesReceived = 10 ∧
    (run 3 (initState 0)
      [Event.request (some "10"), Event.data 0 [65, 13, 10, 13, 10],
       Event.tick 1, Event.data 1 [1], Event.tick 2, Event.data 2 [1],
       Event.tick 3, Event.data 3 [1], Event.tick 4, Event.data 4 [1],
       Event.data 5 [1], Event.data 6 [1], Event.data 7 [1], Event.data 8 [1],
       Event.data 9 [1], Event.data 10 [1], Event.sockEnd, Event.close]).1.contentLength =
      some 10 :=
  ⟨rfl, rfl, rfl⟩

/-- Claim C2 (amended): for a connection whose counted body bytes reach
the declared body length before the watchdog has fired — the code's
watchdog measures elapsed time from the first byte, not from last
progress, so the premise is that nothing has been emitted up to the
completing chunk — neither `timeout` nor `incompleteBody` is emitted
then or afterwards for that request cycle.  Formally: if the events
before the completing chunk emitted nothing, the chunk leaves the
counted bytes equal to the stored `Content-Length`, and the rest of the
cycle consists of watchdog ticks, the socket's `end` and `close`, then
the whole run emits no signal at all. -/
theorem C2_complete_body_silent (tmo openT now : Nat) (pre post : List Event) (chunk : List Nat)
    (hpre : (run tmo (initState openT) pre).2 = [])
    (hdone : (onData (run tmo (initState openT) pre).1 now chunk).contentLength =
             some (onData (run tmo (initState openT) pre).1 now chunk).bytesReceived)
    (hpost : ∀ e ∈ post, isQuiet e = true) :
    (run tmo (initState openT) (pre ++ Event.data now chunk :: post)).2 = [] := by
  rw [run_append, hpre]
  simp only [List.nil_append, run, step]
  have harm := onData_done_disarmed (run tmo (initState openT) pre).1 now chunk hdone
  simpa using quiet_run_silent tmo (onData (run tmo (initState openT) pre).1 now chunk)
    post harm hdone hpost

/-- Concrete instance of C2: `Content-Length: 5` arrives, then one chunk
carrying the headers and the full 5-byte body; a later tick, `end` and
`close` emit nothing. -/
theorem C2_complete_body_silent_witness :
    (run 9 (initState 0)
      ([Event.request (some "5")] ++ Event.data 1 ([65, 13, 10, 13, 10] ++ [9, 9, 9, 9, 9]) ::
        [Event.tick 100, Event.sockEnd, Event.close])).2 = [] :=
  C2_complete_body_silent 9 0 1 [Event.request (some "5")]
    [Event.tick 100, Event.sockEnd, Event.close] ([65, 13, 10, 13, 10] ++ [9, 9, 9, 9, 9])
    rfl rfl (by decide)

/-- Claim C3, as stated, is false on the source: on a connection where
no `Content-Length` header was ever observed (`kContentLength` stays
`undefined`), the `end` handler's `!==` comparison of a number against
`undefined` is true, so ending the connection DOES emit
`incompleteBody`, where the claim promises it never does. -/
theorem C3_counterexample :
    (run 10 (initState 0) [Event.sockEnd]).2 = [Signal.incompleteBody] ∧
    (run 10 (initState 0) [Event.sockEnd]).1.contentLength = none :=
  ⟨rfl, rfl⟩

/-- Claim C3 (amended): on connection end, `incompleteBody` is emitted
iff the stored content length differs from the counted body bytes (so
also when the count overshoots the declared length); in particular on a
connection where no `Content-Length` header was ever observed the stored
length is absent and never equal to the byte count, so ending the
connection ALWAYS emits `incompleteBody`. -/
theorem C3_amended_end_emission (tmo openT : Nat) (es : List Event) (st : ConnState)
    (hnoreq : ∀ hd, Event.request hd ∉ es) :
    ((onEnd st).2 = [Signal.incompleteBody] ↔ st.contentLength ≠ some st.bytesReceived) ∧
    Signal.incompleteBody ∈ (run tmo (initState openT) (es ++ [Event.sockEnd])).2 := by
  constructor
  · unfold onEnd
    by_cases h : st.contentLength = some st.bytesReceived
    · rw [if_neg (not_not_intro h)]
      simp [h]
    · rw [if_pos h]
      simp [h]
  · rw [run_append]
    have hcl : (run tmo (initState openT) es).1.contentLength = none :=
      cl_none_of_noRequest tmo (initState openT) es hnoreq rfl
    have hne : (run tmo (initState openT) es).1.contentLength ≠
        some (run tmo (initState openT) es).1.bytesReceived := by
      rw [hcl]; exact fun hc => Option.noConfusion hc
    have hend : (onEnd (run tmo (initState openT) es).1).2 = [Signal.incompleteBody] := by
      unfold onEnd
      rw [if_pos hne]
    simp only [run, step, List.mem_append, hend]
    simp

/-- Concrete instance of the amended C3: an empty event history (no
`request` event, hence no `Content-Length`) followed by `end` emits
`incompleteBody`, and the general iff instantiated at the fresh state. -/
theorem C3_amended_end_emission_witness :
    (((onEnd (initState 0)).2 = [Signal.incompleteBody] ↔
        (initState 0).contentLength ≠ some (initState 0).bytesReceived)) ∧
    Signal.incompleteBody ∈ (run 10 (initState 0) ([] ++ [Event.sockEnd])).2 :=
  C3_amended_end_emission 10 0 [] (initState 0) (fun hd => List.not_mem_nil (Event.request hd))

/-- Claim C4, as stated, is false on the source: there is no guard tying
the two signals together.  With deadline 3, a client that sends its
headers at `t = 1` declaring `Content-Length: 10`, stalls until the tick
at `t = 5` (emitting `timeout`), and then half-closes the socket with
only 0 of 10 body bytes received, gets `incompleteBody` emitted as well:
two terminal signals in the same request cycle. -/
theorem C4_counterexample :
    (run 3 (initState 0)
      [Event.request (some "10"), Event.data 1 [65, 13, 10, 13, 10],
       Event.tick 5, Event.sockEnd]).2 = [Signal.timeout, Signal.incompleteBody] :=
  rfl

/-- Claim C4 (amended): each signal individually is one-shot — over any
run whose events contain at most one socket `end` (a socket ends at most
once), `timeout` is emitted at most once and `incompleteBody` is emitted
at most once — but the two are not mutually exclusive, so up to two
terminal signals can reach one request cycle. -/
theorem C4_amended_per_signal_once (tmo : Nat) (st : ConnState) (es : List Event)
    (hone : es.count Event.sockEnd ≤ 1) :
    ((run tmo st es).2).count Signal.timeout ≤ 1 ∧
    ((run tmo st es).2).count Signal.incompleteBody ≤ 1 :=
  ⟨timeout_count_le_one tmo st es, incomplete_count_le_one tmo st es hone⟩

/-- Concrete instance of the amended C4 on the counterexample trace:
both signals fire, each exactly once. -/
theorem C4_amended_per_signal_once_witness :
    ((run 3 (initState 0)
      [Event.request (some "10"), Event.data 1 [65, 13, 10, 13, 10],
       Event.tick 5, Event.sockEnd]).2).count Signal.timeout ≤ 1 ∧
    ((run 3 (initState 0)
      [Event.request (some "10"), Event.data 1 [65, 13, 10, 13, 10],
       Event.tick 5, Event.sockEnd]).2).count Signal.incompleteBody ≤ 1 :=
  C4_amended_per_signal_once 3 (initState 0)
    [Event.request (some "10"), Event.data 1 [65, 13, 10, 13, 10],
     Event.tick 5, Event.sockEnd] (by decide)

/-- Claim C5 is about intent the code does not implement:
`socket[kBytesReceived]` is set to 0 only once, in the `connection`
handler, and the `request` handler never resets it, so the counter
accumulates across sequential requests on a persistent connection
(`headersReceived` also stays `true`, so the second request's header
bytes are counted as body bytes).  Concretely: request 1 declares
`Content-Length: 5` and its headers+5-byte body arrive in one chunk;
request 2 then declares `Content-Length: 7` and its 6 header bytes plus
7 body bytes arrive in one chunk; the counter ends at 5 + 6 + 7 = 18
instead of 7. -/
theorem C5_accumulation_across_requests :
    (run 100 (initState 0)
      [Event.request (some "5"), Event.data 0 ([65, 13, 10, 13, 10] ++ [1, 2, 3, 4, 5]),
       Event.request (some "7"),
       Event.data 1 ([66, 67, 13, 10, 13, 10] ++ [1, 2, 3, 4, 5, 6, 7])]).1.bytesReceived = 18 ∧
    (run 100 (initState 0)
      [Event.request (some "5"), Event.data 0 ([65, 13, 10, 13, 10] ++ [1, 2, 3, 4, 5]),
       Event.request (some "7"),
       Event.data 1 ([66, 67, 13, 10, 13, 10] ++ [1, 2, 3, 4, 5, 6, 7])]).1.contentLength = some 7 :=
  ⟨rfl, rfl⟩

/-- Claim C6, as stated, is false on the source: neither signal handler
consults the flush state of the response, so even when the response was
already flushed the handler still writes a status code and body
(`res.status(...).send(...)`) rather than performing only the forced
connection close. -/
theorem C6_counterexample :
    ResAction.writeStatusBody 408 ∈ onTimeoutActions true ∧
    ResAction.writeStatusBody 400 ∈ onIncompleteActions true := by
  decide

/-- Claim C6 (amended): the signal handlers are unconditional in the
flush state — on `timeout` the handler always logs, writes a 408 status
and body, ends the response, destroys the connection and cleans up, and
on `incompleteBody` the same with a 400, whether or not the response was
already flushed; the forced connection close does always happen. -/
theorem C6_amended_unconditional_handlers (flushed : Bool) :
    onTimeoutActions flushed =
      [ResAction.log, ResAction.writeStatusBody 408, ResAction.endResponse,
       ResAction.destroyConn, ResAction.removeListeners] ∧
    onIncompleteActions flushed =
      [ResAction.log, ResAction.writeStatusBody 400, ResAction.endResponse,
       ResAction.destroyConn, ResAction.removeListeners] ∧
    ResAction.destroyConn ∈ onTimeoutActions flushed ∧
    ResAction.destroyConn ∈ onIncompleteActions flushed := by
  cases flushed <;> exact ⟨rfl, rfl, by decide, by decide⟩

/-- Claim C7: when headers of length `H` (ending with the 4-byte
separator, whose first occurrence in the chunk is at offset `H - 4`) and
a body of length `B` arrive in a single chunk before the boundary was
found, exactly `B` bytes are added to the body-byte count — header
bytes, separator included, are never counted. -/
theorem C7_header_bytes_not_counted (st : ConnState) (now : Nat) (hdr body : List Nat)
    (hstart : st.headersReceived = false)
    (hbytes : st.bytesReceived = 0)
    (hlen : 4 ≤ hdr.length)
    (hsep : bufIndexOf headerSep (hdr ++ body) = some (hdr.length - 4)) :
    (onData st now (hdr ++ body)).bytesReceived = body.length := by
  unfold onData
  rw [armCheck_bytesReceived]
  unfold dataCount
  rw [markFirst_headersReceived, hstart]
  simp only [Bool.not_false, if_true, hsep, markFirst_bytesReceived, hbytes,
    List.length_append]
  omega

/-- Concrete instance of C7: a 5-byte header block (1 byte plus the
4-byte separator) followed by a 3-byte body in one chunk yields a count
of exactly 3. -/
theorem C7_header_bytes_not_counted_witness :
    (onData (initState 0) 0 ([80, 13, 10, 13, 10] ++ [1, 2, 3])).bytesReceived =
      [1, 2, 3].length :=
  C7_header_bytes_not_counted (initState 0) 0 [80, 13, 10, 13, 10] [1, 2, 3]
    rfl rfl (by decide) (by decide)

/-- Claim C8: for a body-bearing method (POST, PUT or PATCH) whose
`content-length` header is `"0"`, the middleware immediately sends the
400 response `"Empty request body not allowed"`, attaches no listeners,
and never calls `next()`, so no body monitoring begins and no downstream
middleware runs. -/
theorem C8_zero_length_rejected (method : String) (clHeader : Option String)
    (hm : method = "POST" ∨ method = "PUT" ∨ method = "PATCH")
    (hcl : clHeader = some "0") :
    gateEntry method clHeader =
      { responseStatus := some 400, responseBody := some "Empty request body not allowed",
        listenersAttached := false, nextCalled := false } ∧
    ∃ c, (gateEntry method clHeader).responseStatus = some c ∧ 400 ≤ c ∧ c < 500 := by
  subst hcl
  rcases hm with rfl | rfl | rfl <;>
    exact ⟨by decide, 400, by decide, by omega, by omega⟩

/-- Concrete instance of C8: a POST with `Content-Length: 0`. -/
theorem C8_zero_length_rejected_witness :
    gateEntry "POST" (some "0") =
      { responseStatus := some 400, responseBody := some "Empty request body not allowed",
        listenersAttached := false, nextCalled := false } ∧
    ∃ c, (gateEntry "POST" (some "0")).responseStatus = some c ∧ 400 ≤ c ∧ c < 500 :=
  C8_zero_length_rejected "POST" (some "0") (Or.inl rfl) rfl

/-- Claim C9: running `cleanup` twice is the same as running it once (it
only removes the four listeners, and removing an absent listener is a
no-op, so nothing is raised), and `cleanup` never sends a response, so a
double detach cannot double-send. -/
theorem C9_cleanup_idempotent (g : GateListeners) :
    cleanup (cleanup g) = cleanup g ∧ (cleanup g).responsesSent = g.responsesSent :=
  ⟨rfl, rfl⟩

/-- Claim C10: the data path cancels the watchdog only on exact equality
with the declared length.  If a chunk leaves the counted bytes strictly
above the declared length `n`, the watchdog stays armed, and a
sufficiently late tick still emits `timeout` even though at least the
whole declared body was received. -/
theorem C10_overshoot_no_cancel (st : ConnState) (now now2 tmo : Nat) (chunk : List Nat)
    (n : Nat)
    (harm : st.intervalArmed = true)
    (hcl : (onData st now chunk).contentLength = some n)
    (hover : n < (onData st now chunk).bytesReceived)
    (hlate : tmo < now2 -
      (onData st now chunk).firstByteTime.getD (onData st now chunk).connectionOpenTime) :
    (onData st now chunk).intervalArmed = true ∧
    (onTick (onData st now chunk) now2 tmo).2 = [Signal.timeout] := by
  have hne : (onData st now chunk).contentLength ≠ some (onData st now chunk).bytesReceived := by
    rw [hcl]
    intro hc
    have := Option.some.inj hc
    omega
  have harm2 : (onData st now chunk).intervalArmed = true :=
    (onData_armed_of_ne st now chunk hne).trans harm
  exact ⟨harm2, by simp [onTick, harm2, hlate]⟩

/-- Concrete instance of C10: declared length 5, counter at 3, a 4-byte
chunk jumps the count to 7; the watchdog stays armed and the tick at
time 200 with deadline 100 emits `timeout`. -/
theorem C10_overshoot_no_cancel_witness :
    (onData
      { firstByteTime := some 0, connectionOpenTime := 0, bytesReceived := 3,
        headersReceived := true, contentLength := some 5, intervalArmed := true }
      1 [9, 9, 9, 9]).intervalArmed = true ∧
    (onTick (onData
      { firstByteTime := some 0, connectionOpenTime := 0, bytesReceived := 3,
        headersReceived := true, contentLength := some 5, intervalArmed := true }
      1 [9, 9, 9, 9]) 200 100).2 = [Signal.timeout] :=
  C10_overshoot_no_cancel
    { firstByteTime := some 0, connectionOpenTime := 0, bytesReceived := 3,
      headersReceived := true, contentLength := some 5, intervalArmed := true }
    1 200 100 [9, 9, 9, 9] 5 rfl rfl (by decide) (by decide)
